import Mathlib

/-!
# Verification of the content-moderation engine (scripts/demo-moderation.py)

Shallow embedding of the `ContentAnalyzer` class and the `ModerationResult`
record.  Text is modelled as `List Char` (ASCII: Python's `str.lower`,
`str.isupper`, `str.split` and the regex character classes are modelled by
their ASCII behaviour, which covers every input exercised by the program).
Floating-point scores are modelled as rationals: every score in the program
is a small sum of decimal constants, and every comparison made against a
threshold gives the same answer over ℚ as over IEEE doubles for the values
reachable here.  Regular-expression patterns are alternations of literals
plus three structured patterns (a word-boundary co-occurrence pattern, a
repeated-URL-block pattern, and an 11-long character-run pattern); each is
embedded by its matching semantics: existence of a witnessing position in
the string.  Score dictionaries are association lists and a lookup of an
absent key is `none`, modelling Python's `KeyError` by `Option` failure.
Wall-clock fields (`time.sleep`, `processing_time`) are not modelled; no
claim depends on them.
-/

namespace Moderation

/-- A text or image-reference input: a list of characters. -/
abbrev Text := List Char

/-- Python whitespace for `str.split` and the regex class `\s` (ASCII part). -/
def pyIsSpace (c : Char) : Bool :=
  c == ' ' || c == '\t' || c == '\n' || c == '\r' || c == '\x0b' || c == '\x0c'

/-- `matchHead needle hay`: `hay` begins with `needle`. -/
def matchHead : List Char → List Char → Bool
  | [], _ => true
  | _ :: _, [] => false
  | a :: as, b :: bs => a == b && matchHead as bs

/-- `containsSub needle hay`: `needle` occurs somewhere in `hay`
(Python's `in` operator, and `re.search` of a literal). -/
def containsSub (needle : List Char) : List Char → Bool
  | [] => needle.isEmpty
  | c :: rest => matchHead needle (c :: rest) || containsSub needle rest

/-- Accumulator for whitespace splitting. -/
def pySplitAux : List Char → List Char → List (List Char)
  | [], acc => if acc.isEmpty then [] else [acc.reverse]
  | c :: rest, acc =>
    if pyIsSpace c then
      if acc.isEmpty then pySplitAux rest [] else acc.reverse :: pySplitAux rest []
    else pySplitAux rest (c :: acc)

/-- Python `str.split()` with no argument: split on runs of whitespace,
dropping empty tokens. -/
def pySplit (l : List Char) : List (List Char) := pySplitAux l []

/-- Python `str.lower()` (ASCII). -/
def pyLower (l : List Char) : List Char := l.map Char.toLower

/-- Number of distinct elements of a token list (`len(set(words))`). -/
def countDistinct : List (List Char) → Nat
  | [] => 0
  | w :: rest => (if rest.contains w then 0 else 1) + countDistinct rest

/-! ## Toxicity scorer (`calculate_toxicity_score`, lines 97-118) -/

/-- The four toxic regex patterns of `ContentAnalyzer.__init__`, each an
alternation of literal strings, compiled with `re.IGNORECASE`. -/
def toxic_patterns : List (List (List Char)) :=
  [ (["hate", "toxic", "abusive", "harassment"].map String.data),
    (["kill yourself", "die", "death threats"].map String.data),
    (["racism", "sexism", "discrimination"].map String.data),
    (["idiot", "stupid", "moron", "worthless"].map String.data) ]

/-- An `re.IGNORECASE` search of an alternation-of-literals pattern succeeds
iff some alternative occurs in the lower-cased text (every alternative is a
lower-case literal). -/
def patternMatches (alts : List (List Char)) (text_lower : List Char) : Bool :=
  alts.any (fun a => containsSub a text_lower)

/-- The hard-coded profanity word list of `calculate_toxicity_score`. -/
def profanity_words : List (List Char) :=
  ["damn", "hell", "crap", "stupid", "idiot"].map String.data

/-- Number of toxic patterns whose search succeeds on the text
(each pattern contributes at most once, as in the `for` loop). -/
def toxicPatternCount (text : Text) : Nat :=
  (toxic_patterns.filter (fun p => patternMatches p (pyLower text))).length

/-- `profanity_count`: whitespace tokens of the lower-cased text equal to a
profanity word; occurrences count, per the generator expression. -/
def profanityCount (text : Text) : Nat :=
  ((pySplit (pyLower text)).filter (fun w => profanity_words.contains w)).length

/-- `caps_count`: characters for which `c.isupper()` holds. -/
def capsCount (text : Text) : Nat := (text.filter Char.isUpper).length

/-- `caps_ratio`: upper-case letters over total characters, guarded to 0 on
the empty string (`... if text else 0`). -/
def capsRatio (text : Text) : ℚ :=
  if text.length = 0 then 0
  else (capsCount text : ℚ) / (text.length : ℚ)

/-- `ContentAnalyzer.calculate_toxicity_score`: 0.3 per matching toxic
pattern, 0.1 per profanity token, a flat 0.2 when the caps ratio exceeds
0.5, clamped by `min(score, 1.0)`. -/
def calculate_toxicity_score (text : Text) : ℚ :=
  let score1 : ℚ := 0 + (toxicPatternCount text : ℚ) * (3 / 10)
  let score2 := score1 + (profanityCount text : ℚ) * (1 / 10)
  let score3 := if capsRatio text > 1 / 2 then score2 + 2 / 10 else score2
  min score3 1

/-! ## Spam scorer (`calculate_spam_score`, lines 120-139)

The four spam patterns of `__init__`.  Patterns 1-3 are compiled with
`re.IGNORECASE` and are modelled on the lower-cased text; pattern 4 has no
flag and is applied to the original text. -/

/-- The regex word class `\w` (ASCII part). -/
def wordChar (c : Char) : Bool := c.isAlphanum || c == '_'

/-- `w` occurs at position `i` of `hay` with a word boundary `\b` on each
side. -/
def boundedAt (w hay : List Char) (i : Nat) : Bool :=
  matchHead w (hay.drop i) &&
  (i == 0 || !wordChar (hay.getD (i - 1) ' ')) &&
  (i + w.length == hay.length || !wordChar (hay.getD (i + w.length) ' '))

/-- The characters of `hay` in positions `[a, b)` contain no newline: the
regex `.` (without `re.DOTALL`) matches any character except `\n`, so a
`.*` gap must be newline-free. -/
def noNewline (hay : List Char) (a b : Nat) : Bool :=
  !(((hay.drop a).take (b - a)).contains '\n')

/-- First word group of spam pattern 1. -/
def spamWordsA : List (List Char) :=
  ["buy", "sale", "discount", "offer", "deal"].map String.data

/-- Second word group of spam pattern 1. -/
def spamWordsB : List (List Char) :=
  ["now", "today", "limited"].map String.data

/-- Spam pattern 1, `\b(buy|sale|discount|offer|deal)\b.*\b(now|today|limited)\b`:
a bounded group-A word followed, after a newline-free gap, by a bounded
group-B word. -/
def spam1 (hay : List Char) : Bool :=
  (List.range (hay.length + 1)).any fun i =>
    spamWordsA.any fun wa =>
      boundedAt wa hay i &&
      ((List.range (hay.length + 1)).any fun j =>
        decide (i + wa.length ≤ j) &&
        spamWordsB.any (fun wb => boundedAt wb hay j) &&
        noNewline hay (i + wa.length) j)

/-- Spam pattern 2, `click here|visit.*website|make money`. -/
def spam2 (hay : List Char) : Bool :=
  containsSub "click here".data hay ||
  ((List.range (hay.length + 1)).any fun i =>
    matchHead "visit".data (hay.drop i) &&
    ((List.range (hay.length + 1)).any fun j =>
      decide (i + 5 ≤ j) && matchHead "website".data (hay.drop j) &&
      noNewline hay (i + 5) j)) ||
  containsSub "make money".data hay

/-- Strip a literal `https://` or `http://` scheme (the regex `https?://`). -/
def stripScheme (l : List Char) : Option (List Char) :=
  if matchHead "https://".data l then some (l.drop 8)
  else if matchHead "http://".data l then some (l.drop 7)
  else none

/-- `k` consecutive repetitions of the group `https?://[^\s]+` can be
parsed starting at the head of the list: strip a scheme, consume a
non-empty run of `m + 1` non-space body characters (the split point is
searched over, modelling regex backtracking), recurse.  The first argument
is structural-recursion fuel; every call strips at least one character, so
any fuel of at least `l.length + 1` is never exhausted. -/
def blocksFromAux : Nat → Nat → List Char → Bool
  | _, 0, _ => true
  | 0, _ + 1, _ => false
  | fuel + 1, k + 1, l =>
    match stripScheme l with
    | none => false
    | some r =>
      (List.range r.length).any fun m =>
        (r.take (m + 1)).all (fun c => !pyIsSpace c) &&
        blocksFromAux fuel k (r.drop (m + 1))

/-- Spam pattern 3, `(https?://[^\s]+){3,}`: three consecutive URL blocks
starting at some position. -/
def spam3 (hay : List Char) : Bool :=
  (List.range (hay.length + 1)).any fun i =>
    blocksFromAux (hay.length + 1) 3 (hay.drop i)

/-- Spam pattern 4, `(.)\1{10,}` (no IGNORECASE): some non-newline
character followed by at least ten copies of itself. -/
def spam4 : List Char → Bool
  | [] => false
  | c :: rest => (!(c == '\n') && matchHead (List.replicate 10 c) rest) || spam4 rest

/-- Number of spam patterns (lines 37-42) whose search succeeds; patterns
1-3 are case-insensitive, pattern 4 is case-sensitive. -/
def spamPatternCount (text : Text) : Nat :=
  (([spam1 (pyLower text), spam2 (pyLower text), spam3 (pyLower text),
     spam4 text]).filter (fun b => b)).length

/-- Drop the leading run of non-space characters. -/
def dropNonspace : List Char → List Char
  | [] => []
  | c :: rest => if pyIsSpace c then c :: rest else dropNonspace rest

/-- Fuel-driven body of `countUrls`; every recursive call strictly shortens
the list, so any fuel of at least the list length is never exhausted. -/
def countUrlsAux : Nat → List Char → Nat
  | _, [] => 0
  | 0, _ :: _ => 0
  | fuel + 1, c :: rest =>
    match stripScheme (c :: rest) with
    | some [] => countUrlsAux fuel rest
    | some (d :: r2) =>
      if pyIsSpace d then countUrlsAux fuel rest
      else 1 + countUrlsAux fuel (dropNonspace r2)
    | none => countUrlsAux fuel rest

/-- `len(re.findall(r'https?://[^\s]+', text))`: non-overlapping matches
counted left to right; a match greedily consumes the whole following run of
non-space characters.  No IGNORECASE flag: the scheme is matched
case-sensitively on the original text. -/
def countUrls (l : List Char) : Nat := countUrlsAux l.length l

/-- `ContentAnalyzer.calculate_spam_score`: 0.4 per matching spam pattern,
plus 0.3 when more than two URLs occur, plus 0.3 when there are more than
ten tokens and the distinct-token ratio is below 0.3, clamped by
`min(score, 1.0)`. -/
def calculate_spam_score (text : Text) : ℚ :=
  let score1 : ℚ := 0 + (spamPatternCount text : ℚ) * (4 / 10)
  let score2 := if countUrls text > 2 then score1 + 3 / 10 else score1
  let words := pySplit text
  let score3 :=
    if words.length > 10 ∧ (countDistinct words : ℚ) / (words.length : ℚ) < 3 / 10
    then score2 + 3 / 10 else score2
  min score3 1

/-! ## Sentiment scorer (`calculate_sentiment`, lines 141-154) -/

/-- Positive word list. -/
def positive_words : List (List Char) :=
  ["good", "great", "awesome", "love", "excellent", "amazing", "wonderful"].map
    String.data

/-- Negative word list. -/
def negative_words : List (List Char) :=
  ["bad", "terrible", "awful", "hate", "horrible", "disgusting"].map String.data

/-- `ContentAnalyzer.calculate_sentiment`: +0.1 per positive token, -0.1
per negative token (independent `if`s), clamped by
`max(-1.0, min(1.0, sentiment))`. -/
def calculate_sentiment (text : Text) : ℚ :=
  let words := pySplit (pyLower text)
  let s := words.foldl
    (fun acc w =>
      let acc1 := if positive_words.contains w then acc + 1 / 10 else acc
      if negative_words.contains w then acc1 - 1 / 10 else acc1) 0
  max (-1) (min 1 s)

/-! ## Decision and reason logic (lines 156-186) -/

/-- The four moderation actions. -/
inductive Action where
  | approved
  | warn
  | flag
  | block
deriving DecidableEq

/-- Severity rank of an action: `approved < warn < flag < block`. -/
def severity : Action → Nat
  | .approved => 0
  | .warn => 1
  | .flag => 2
  | .block => 3

/-- A Python score dictionary: an association list from key to value.
`lookup` of an absent key is `none`, modelling `KeyError`. -/
abbrev ScoreSet := List (String × ℚ)

/-- The decision ladder of `determine_action` as a function of the two
scores it reads (`toxicity_threshold = 0.7`, `spam_threshold = 0.8`). -/
def determineActionTS (t s : ℚ) : Action :=
  if t > 7 / 10 ∨ s > 8 / 10 then .block
  else if t > 4 / 10 ∨ s > 5 / 10 then .flag
  else if t > 2 / 10 ∨ s > 3 / 10 then .warn
  else .approved

/-- `ContentAnalyzer.determine_action` on a raw score dictionary.  Dict
accesses are modelled in Python's evaluation order with `or`
short-circuiting: `scores['toxicity']` is always read; `scores['spam']` is
read unless `toxicity > 0.7` already decided the first condition.  A
missing key makes the whole call fail (`none`, modelling `KeyError`). -/
def determine_action (scores : ScoreSet) : Option Action := do
  let t ← scores.lookup "toxicity"
  if t > 7 / 10 then pure .block
  else do
    let s ← scores.lookup "spam"
    if s > 8 / 10 then pure .block
    else if t > 4 / 10 ∨ s > 5 / 10 then pure .flag
    else if t > 2 / 10 ∨ s > 3 / 10 then pure .warn
    else pure .approved

/-- The reason text of `generate_reason` as a function of the two scores it
reads. -/
def generateReasonTS (t s : ℚ) (action : Action) : String :=
  let reasons : List String :=
    (if t > 7 / 10 then ["High toxicity detected"]
     else if t > 4 / 10 then ["Potentially inappropriate language"] else []) ++
    (if s > 8 / 10 then ["Spam content detected"]
     else if s > 5 / 10 then ["Promotional content flagged"] else [])
  if reasons.isEmpty then
    match action with
    | .warn => "Content contains questionable material"
    | .approved => "Content approved"
    | _ => "Automatic moderation applied"
  else String.intercalate ", " reasons

/-- `ContentAnalyzer.generate_reason` on a raw score dictionary; both the
`toxicity` and `spam` keys are read unconditionally (lines 168 and 173), so
either key missing fails with `KeyError` (`none`). -/
def generate_reason (scores : ScoreSet) (action : Action) : Option String := do
  let t ← scores.lookup "toxicity"
  let s ← scores.lookup "spam"
  pure (generateReasonTS t s action)

/-! ## The engine (`analyze_text` lines 44-71, `analyze_image` lines 73-95)

`ModerationResult.processing_time` is wall-clock time and is not modelled.
In `analyze_text` the dictionary always carries both the `toxicity` and
`spam` keys, so the `determine_action` / `generate_reason` calls succeed;
`analyze_text` is assembled from the `TS` functions, and the lemmas
`determine_action_text` / `generate_reason_text` below prove that the
dictionary-passing calls of the source agree with them. -/

/-- The `ModerationResult` record (without the wall-clock field). -/
structure ModerationResult where
  action : Action
  reason : String
  scores : ScoreSet
  appealable : Bool

/-- `ContentAnalyzer.analyze_text`: score, decide, explain;
`appealable = (action != 'approved')`. -/
def analyze_text (text : Text) : ModerationResult :=
  let toxicity_score := calculate_toxicity_score text
  let spam_score := calculate_spam_score text
  let sentiment := calculate_sentiment text
  let scores : ScoreSet :=
    [("toxicity", toxicity_score), ("spam", spam_score),
     ("sentiment", sentiment), ("confidence", 85 / 100)]
  let action := determineActionTS toxicity_score spam_score
  let reason := generateReasonTS toxicity_score spam_score action
  { action := action, reason := reason, scores := scores,
    appealable := decide (action ≠ Action.approved) }

/-- `nsfw_score` of `analyze_image` (line 78): case-sensitive substring
tests on the reference. -/
def nsfw_score (image_url : Text) : ℚ :=
  if containsSub "nsfw".data image_url || containsSub "adult".data image_url
  then 9 / 10 else 1 / 10

/-- `violence_score` of `analyze_image` (line 79). -/
def violence_score (image_url : Text) : ℚ :=
  if containsSub "violence".data image_url || containsSub "weapon".data image_url
  then 8 / 10 else 1 / 10

/-- `ContentAnalyzer.analyze_image`: mock scores, the binary block rule
(`nsfw_threshold = 0.6`), a fixed reason.  The `ModerationResult`
constructor call omits `appealable`, so the dataclass default `True` is
used. -/
def analyze_image (image_url : Text) : ModerationResult :=
  let scores : ScoreSet :=
    [("nsfw", nsfw_score image_url), ("violence", violence_score image_url),
     ("confidence", 9 / 10)]
  let action : Action :=
    if nsfw_score image_url > 6 / 10 ∨ violence_score image_url > 7 / 10
    then .block else .approved
  { action := action, reason := "Image content analysis completed",
    scores := scores, appealable := true }

/-- Agreement of the dictionary-passing `determine_action` with the `TS`
form on any dictionary carrying both keys (in particular the one built by
`analyze_text`). -/
theorem determine_action_text (scores : ScoreSet) (t s : ℚ)
    (ht : scores.lookup "toxicity" = some t) (hs : scores.lookup "spam" = some s) :
    determine_action scores = some (determineActionTS t s) := by
  unfold determine_action determineActionTS
  rw [ht]
  simp only [Option.bind_eq_bind, Option.some_bind, hs]
  by_cases h1 : t > 7 / 10
  · simp [h1]
  · by_cases h2 : s > 8 / 10
    · simp [h1, h2]
    · simp [h1, h2]
      split_ifs <;> simp_all

/-- Agreement of the dictionary-passing `generate_reason` with the `TS`
form on any dictionary carrying both keys. -/
theorem generate_reason_text (scores : ScoreSet) (t s : ℚ) (a : Action)
    (ht : scores.lookup "toxicity" = some t) (hs : scores.lookup "spam" = some s) :
    generate_reason scores a = some (generateReasonTS t s a) := by
  unfold generate_reason
  rw [ht]
  simp [hs]

/-! ## Shared facts -/

theorem toxicity_nonneg (text : Text) : 0 ≤ calculate_toxicity_score text := by
  unfold calculate_toxicity_score
  refine le_min ?_ zero_le_one
  split_ifs <;> positivity

theorem toxicity_le_one (text : Text) : calculate_toxicity_score text ≤ 1 := by
  unfold calculate_toxicity_score
  exact min_le_right _ _

theorem spam_nonneg (text : Text) : 0 ≤ calculate_spam_score text := by
  unfold calculate_spam_score
  refine le_min ?_ zero_le_one
  split_ifs <;> positivity

theorem spam_le_one (text : Text) : calculate_spam_score text ≤ 1 := by
  unfold calculate_spam_score
  exact min_le_right _ _

theorem sentiment_ge_neg_one (text : Text) : -1 ≤ calculate_sentiment text := by
  unfold calculate_sentiment
  exact le_max_left _ _

theorem sentiment_le_one (text : Text) : calculate_sentiment text ≤ 1 := by
  unfold calculate_sentiment
  exact max_le (by norm_num) (min_le_left _ _)

theorem analyze_text_action (text : Text) :
    (analyze_text text).action =
      determineActionTS (calculate_toxicity_score text) (calculate_spam_score text) :=
  rfl

theorem analyze_text_reason (text : Text) :
    (analyze_text text).reason =
      generateReasonTS (calculate_toxicity_score text) (calculate_spam_score text)
        (determineActionTS (calculate_toxicity_score text) (calculate_spam_score text)) :=
  rfl

theorem analyze_text_lookup_toxicity (text : Text) :
    (analyze_text text).scores.lookup "toxicity" = some (calculate_toxicity_score text) :=
  rfl

theorem analyze_text_lookup_spam (text : Text) :
    (analyze_text text).scores.lookup "spam" = some (calculate_spam_score text) :=
  rfl

theorem analyze_text_lookup_sentiment (text : Text) :
    (analyze_text text).scores.lookup "sentiment" = some (calculate_sentiment text) :=
  rfl

theorem analyze_text_lookup_confidence (text : Text) :
    (analyze_text text).scores.lookup "confidence" = some (85 / 100) :=
  rfl

/-! ## Claim C1 -/

/-- C1, counterexample: for the demo image reference
`https://example.com/cute-puppy.jpg` the image path returns action
`approved` yet `appealable = true` (the `ModerationResult` constructor call
of `analyze_image` omits `appealable`, so the dataclass default `True` is
used), refuting `appealable = (action != approved)` for image results. -/
theorem C1_counterexample :
    (analyze_image ("https://example.com/cute-puppy.jpg".data)).action = Action.approved ∧
    (analyze_image ("https://example.com/cute-puppy.jpg".data)).appealable = true ∧
    ¬ ((analyze_image ("https://example.com/cute-puppy.jpg".data)).appealable =
        decide ((analyze_image ("https://example.com/cute-puppy.jpg".data)).action ≠
          Action.approved)) := by
  have hn : nsfw_score ("https://example.com/cute-puppy.jpg".data) = 1 / 10 := by
    unfold nsfw_score
    rw [show (containsSub "nsfw".data ("https://example.com/cute-puppy.jpg".data) ||
      containsSub "adult".data ("https://example.com/cute-puppy.jpg".data)) = false from by decide]
    simp
  have hv : violence_score ("https://example.com/cute-puppy.jpg".data) = 1 / 10 := by
    unfold violence_score
    rw [show (containsSub "violence".data ("https://example.com/cute-puppy.jpg".data) ||
      containsSub "weapon".data ("https://example.com/cute-puppy.jpg".data)) = false from by decide]
    simp
  have ha : (analyze_image ("https://example.com/cute-puppy.jpg".data)).action = Action.approved := by
    show (if nsfw_score _ > 6 / 10 ∨ violence_score _ > 7 / 10
          then Action.block else Action.approved) = Action.approved
    rw [hn, hv]
    norm_num
  refine ⟨ha, ?_, ?_⟩
  · exact rfl
  · have hb : (analyze_image ("https://example.com/cute-puppy.jpg".data)).appealable = true :=
      rfl
    rw [ha, hb]
    simp

/-- C1, amended: `appealable = (action != approved)` holds for every text
result; every image result instead has `appealable = true` (the dataclass
default), even when its action is `approved`. -/
theorem C1_appealable_amended :
    (∀ text : Text,
      (analyze_text text).appealable = decide ((analyze_text text).action ≠ Action.approved)) ∧
    (∀ url : Text, (analyze_image url).appealable = true) :=
  ⟨fun _ => rfl, fun _ => rfl⟩

/-! ## Claim C2 -/

/-- C2, counterexample: `determine_action` on the image-shaped score set
produced by the image path (keys `nsfw`, `violence`, `confidence` only)
fails with a `KeyError` (modelled as `none`) instead of treating the
missing `toxicity`/`spam` keys as 0.0 and returning an action. -/
theorem C2_counterexample :
    determine_action (analyze_image ("https://example.com/cute-puppy.jpg".data)).scores
      = none :=
  rfl

/-- C2, amended: `determine_action` returns one of the four actions on any
score mapping in which both the `toxicity` and the `spam` key are present
(every score set `analyze_text` builds is of this shape); on a mapping
lacking either key it raises `KeyError` rather than treating the missing
key as 0.0. -/
theorem C2_total_on_text_shape (scores : ScoreSet) (t s : ℚ)
    (ht : scores.lookup "toxicity" = some t) (hs : scores.lookup "spam" = some s) :
    determine_action scores = some (determineActionTS t s) :=
  determine_action_text scores t s ht hs

/-- Witness for C2 at a concrete two-key score set. -/
theorem C2_total_on_text_shape_witness :
    ([(("toxicity" : String), (0 : ℚ)), ("spam", 0)].lookup "toxicity" = some 0) ∧
    ([(("toxicity" : String), (0 : ℚ)), ("spam", 0)].lookup "spam" = some 0) ∧
    determine_action [(("toxicity" : String), (0 : ℚ)), ("spam", 0)] =
      some (determineActionTS 0 0) :=
  ⟨rfl, rfl, C2_total_on_text_shape _ 0 0 rfl rfl⟩

/-! ## Claim C7 -/

/-- C7: for every reference string, the image path returns
nsfw = 0.9 when the reference contains `nsfw` or `adult` (case-sensitive)
and 0.1 otherwise; violence = 0.8 when it contains `violence` or `weapon`
and 0.1 otherwise; confidence = 0.9; action `block` exactly when
`nsfw > 0.6 ∨ violence > 0.7` and `approved` otherwise (never `warn` or
`flag`); and the fixed reason `Image content analysis completed`. -/
theorem C7_image_path (url : Text) :
    ((analyze_image url).scores.lookup "nsfw" = some (nsfw_score url)) ∧
    ((analyze_image url).scores.lookup "violence" = some (violence_score url)) ∧
    ((analyze_image url).scores.lookup "confidence" = some (9 / 10)) ∧
    (nsfw_score url =
      if containsSub "nsfw".data url || containsSub "adult".data url
      then 9 / 10 else 1 / 10) ∧
    (violence_score url =
      if containsSub "violence".data url || containsSub "weapon".data url
      then 8 / 10 else 1 / 10) ∧
    ((analyze_image url).action = Action.block ↔
      (nsfw_score url > 6 / 10 ∨ violence_score url > 7 / 10)) ∧
    ((analyze_image url).action = Action.block ∨
      (analyze_image url).action = Action.approved) ∧
    ((analyze_image url).reason = "Image content analysis completed") := by
  refine ⟨rfl, rfl, rfl, rfl, rfl, ?_, ?_, rfl⟩
  · show (if nsfw_score url > 6 / 10 ∨ violence_score url > 7 / 10
          then Action.block else Action.approved) = Action.block ↔ _
    split_ifs with h
    · simp [h]
    · simp [h]
  · show (if nsfw_score url > 6 / 10 ∨ violence_score url > 7 / 10
          then Action.block else Action.approved) = Action.block ∨
        (if nsfw_score url > 6 / 10 ∨ violence_score url > 7 / 10
          then Action.block else Action.approved) = Action.approved
    split_ifs <;> simp

/-! ## Claim C4 -/

/-- The ratio of upper-case letters to total characters, written without
the source's emptiness guard (over ℚ, division by zero is zero, which
coincides with the guarded value). -/
theorem capsRatio_eq (text : Text) :
    capsRatio text = (capsCount text : ℚ) / (text.length : ℚ) := by
  unfold capsRatio
  split_ifs with h
  · rw [h]
    simp
  · rfl

/-- Modelled from the spec's words for C4: start from 0.0, add 0.3 once per
matching toxicity pattern, add 0.1 per profanity token occurrence, add a
flat 0.2 if the ratio of upper-case letters to total characters exceeds
0.5, and clamp the sum to at most 1.0. -/
def toxicity_ref (text : Text) : ℚ :=
  min (0 + (toxicPatternCount text : ℚ) * (3 / 10)
        + (profanityCount text : ℚ) * (1 / 10)
        + (if (capsCount text : ℚ) / (text.length : ℚ) > 1 / 2 then 2 / 10 else 0)) 1

/-- C4: the toxicity score computed by the code equals the reference
definition written from the spec's words, and it lies in `[0, 1]` (in
particular it is never below 0.0). -/
theorem C4_toxicity_matches_reference (text : Text) :
    toxicity_ref text = calculate_toxicity_score text ∧
    0 ≤ calculate_toxicity_score text ∧ calculate_toxicity_score text ≤ 1 := by
  refine ⟨?_, toxicity_nonneg text, toxicity_le_one text⟩
  simp only [toxicity_ref, calculate_toxicity_score, ← capsRatio_eq]
  split_ifs
  · rfl
  · congr 1
    ring

/-! ## Claim C5 -/

/-- C5: for every text input, the returned toxicity, spam and confidence
scores lie in `[0, 1]` and the sentiment score lies in `[-1, 1]`. -/
theorem C5_score_bounds (text : Text) :
    ((analyze_text text).scores.lookup "toxicity" = some (calculate_toxicity_score text) ∧
      0 ≤ calculate_toxicity_score text ∧ calculate_toxicity_score text ≤ 1) ∧
    ((analyze_text text).scores.lookup "spam" = some (calculate_spam_score text) ∧
      0 ≤ calculate_spam_score text ∧ calculate_spam_score text ≤ 1) ∧
    ((analyze_text text).scores.lookup "confidence" = some (85 / 100) ∧
      (0 : ℚ) ≤ 85 / 100 ∧ (85 : ℚ) / 100 ≤ 1) ∧
    ((analyze_text text).scores.lookup "sentiment" = some (calculate_sentiment text) ∧
      -1 ≤ calculate_sentiment text ∧ calculate_sentiment text ≤ 1) :=
  ⟨⟨analyze_text_lookup_toxicity text, toxicity_nonneg text, toxicity_le_one text⟩,
   ⟨analyze_text_lookup_spam text, spam_nonneg text, spam_le_one text⟩,
   ⟨analyze_text_lookup_confidence text, by norm_num, by norm_num⟩,
   ⟨analyze_text_lookup_sentiment text, sentiment_ge_neg_one text, sentiment_le_one text⟩⟩

/-! ## Claim C6 -/

theorem toxicity_empty : calculate_toxicity_score [] = 0 := by
  have h1 : toxicPatternCount [] = 0 := by decide
  have h2 : profanityCount [] = 0 := by decide
  have h3 : capsRatio [] = 0 := by simp [capsRatio]
  simp only [calculate_toxicity_score, h1, h2, h3]
  norm_num [min_def]

theorem spam_empty : calculate_spam_score [] = 0 := by
  have h1 : spamPatternCount [] = 0 := by decide
  have h2 : countUrls [] = 0 := by decide
  have h3 : pySplit ([] : Text) = [] := by decide
  simp only [calculate_spam_score, h1, h2, h3]
  norm_num [min_def, countDistinct]

theorem sentiment_empty : calculate_sentiment [] = 0 := by
  have h3 : pySplit (pyLower []) = [] := by decide
  simp only [calculate_sentiment, h3]
  norm_num [min_def, max_def]

theorem determineActionTS_zero : determineActionTS 0 0 = Action.approved := by
  unfold determineActionTS
  norm_num

theorem generateReasonTS_zero :
    generateReasonTS 0 0 Action.approved = "Content approved" := by
  unfold generateReasonTS
  norm_num

/-- C6: every scoring function is total on the empty string, and the
guarded ratios (upper-case ratio, distinct-token ratio) contribute zero
there: all scores of `""` are 0 and the empty string is approved. -/
theorem C6_empty_string_total :
    calculate_toxicity_score [] = 0 ∧ calculate_spam_score [] = 0 ∧
    calculate_sentiment [] = 0 ∧ capsRatio [] = 0 ∧
    (analyze_text []).action = Action.approved ∧
    (analyze_text []).reason = "Content approved" := by
  refine ⟨toxicity_empty, spam_empty, sentiment_empty, by simp [capsRatio], ?_, ?_⟩
  · rw [analyze_text_action, toxicity_empty, spam_empty, determineActionTS_zero]
  · rw [analyze_text_reason, toxicity_empty, spam_empty, determineActionTS_zero,
      generateReasonTS_zero]

/-! ## Claim C8 -/

/-- The toxicity score as a function of its three signals: number of
matching patterns, number of profanity tokens, and the aggressive-tone
flag. -/
def toxicityFromSignals (p c : Nat) (b : Bool) : ℚ :=
  min (0 + (p : ℚ) * (3 / 10) + (c : ℚ) * (1 / 10) + (if b then 2 / 10 else 0)) 1

/-- `calculate_toxicity_score` is exactly `toxicityFromSignals` applied to
the three signals extracted from the text. -/
theorem calculate_toxicity_eq_signals (text : Text) :
    calculate_toxicity_score text =
      toxicityFromSignals (toxicPatternCount text) (profanityCount text)
        (decide (capsRatio text > 1 / 2)) := by
  unfold calculate_toxicity_score toxicityFromSignals
  by_cases h : capsRatio text > 1 / 2
  · simp only [h, if_pos, decide_eq_true_eq, if_true, decide_True]
  · simp only [h, decide_False, if_neg, Bool.false_eq_true, if_false]
    congr 1
    ring

/-- The toxicity signal sum is monotone in the pattern and profanity
counts. -/
theorem toxicityFromSignals_mono {p p' c c' : Nat} (b : Bool)
    (hp : p ≤ p') (hc : c ≤ c') :
    toxicityFromSignals p c b ≤ toxicityFromSignals p' c' b := by
  unfold toxicityFromSignals
  have h1 : (p : ℚ) ≤ (p' : ℚ) := Nat.cast_le.mpr hp
  have h2 : (c : ℚ) ≤ (c' : ℚ) := Nat.cast_le.mpr hc
  refine min_le_min ?_ le_rfl
  have h3 : (p : ℚ) * (3 / 10) ≤ (p' : ℚ) * (3 / 10) :=
    mul_le_mul_of_nonneg_right h1 (by norm_num)
  have h4 : (c : ℚ) * (1 / 10) ≤ (c' : ℚ) * (1 / 10) :=
    mul_le_mul_of_nonneg_right h2 (by norm_num)
  linarith

/-- Raising the toxicity score (spam fixed) never lowers the severity of
the decided action. -/
theorem severity_mono_toxicity {t t' s : ℚ} (h : t ≤ t') :
    severity (determineActionTS t s) ≤ severity (determineActionTS t' s) := by
  unfold determineActionTS
  by_cases c1 : t > 7 / 10 ∨ s > 8 / 10
  · have d1 : t' > 7 / 10 ∨ s > 8 / 10 := by
      rcases c1 with h1 | h1
      · exact Or.inl (by linarith)
      · exact Or.inr h1
    rw [if_pos c1, if_pos d1]
  · rw [if_neg c1]
    by_cases c2 : t > 4 / 10 ∨ s > 5 / 10
    · have d2 : t' > 4 / 10 ∨ s > 5 / 10 := by
        rcases c2 with h1 | h1
        · exact Or.inl (by linarith)
        · exact Or.inr h1
      rw [if_pos c2]
      by_cases d1 : t' > 7 / 10 ∨ s > 8 / 10
      · rw [if_pos d1]
        simp [severity]
      · rw [if_neg d1, if_pos d2]
    · rw [if_neg c2]
      by_cases c3 : t > 2 / 10 ∨ s > 3 / 10
      · have d3 : t' > 2 / 10 ∨ s > 3 / 10 := by
          rcases c3 with h1 | h1
          · exact Or.inl (by linarith)
          · exact Or.inr h1
        rw [if_pos c3]
        by_cases d1 : t' > 7 / 10 ∨ s > 8 / 10
        · rw [if_pos d1]
          simp [severity]
        · rw [if_neg d1]
          by_cases d2 : t' > 4 / 10 ∨ s > 5 / 10
          · rw [if_pos d2]
            simp [severity]
          · rw [if_neg d2, if_pos d3]
      · rw [if_neg c3]
        split_ifs <;> simp [severity]

/-- C8: with the aggressive-tone flag and the spam score held fixed,
adding a matching toxicity pattern or a profanity-token occurrence never
decreases the toxicity score, and never moves the decided action to a
strictly less severe tier (severity order
`approved < warn < flag < block`); and the toxicity score of any text is
exactly this signal function applied to the text's signals. -/
theorem C8_toxicity_monotone (p p' c c' : Nat) (b : Bool) (s : ℚ)
    (hp : p ≤ p') (hc : c ≤ c') :
    toxicityFromSignals p c b ≤ toxicityFromSignals p' c' b ∧
    severity (determineActionTS (toxicityFromSignals p c b) s) ≤
      severity (determineActionTS (toxicityFromSignals p' c' b) s) ∧
    ∀ text : Text, calculate_toxicity_score text =
      toxicityFromSignals (toxicPatternCount text) (profanityCount text)
        (decide (capsRatio text > 1 / 2)) :=
  ⟨toxicityFromSignals_mono b hp hc,
   severity_mono_toxicity (toxicityFromSignals_mono b hp hc),
   calculate_toxicity_eq_signals⟩

/-- Witness for C8 at one extra pattern and one extra profanity token. -/
theorem C8_toxicity_monotone_witness :
    ((0 ≤ 1 ∧ 0 ≤ 1) ∧
    (toxicityFromSignals 0 0 false ≤ toxicityFromSignals 1 1 false ∧
     severity (determineActionTS (toxicityFromSignals 0 0 false) 0) ≤
       severity (determineActionTS (toxicityFromSignals 1 1 false) 0) ∧
     ∀ text : Text, calculate_toxicity_score text =
       toxicityFromSignals (toxicPatternCount text) (profanityCount text)
         (decide (capsRatio text > 1 / 2)))) :=
  ⟨⟨by decide, by decide⟩, C8_toxicity_monotone 0 1 0 1 false 0 (by decide) (by decide)⟩

/-! ## Claim C9 -/

/-- C9: `determine_action` and `generate_reason` read only the `toxicity`
and `spam` entries of the score dictionary: two dictionaries that agree on
those two lookups (and may differ arbitrarily on `sentiment` and
`confidence`) yield the same action and, for every action, the same reason
string. -/
theorem C9_noninterference (s1 s2 : ScoreSet)
    (ht : s1.lookup "toxicity" = s2.lookup "toxicity")
    (hs : s1.lookup "spam" = s2.lookup "spam") :
    determine_action s1 = determine_action s2 ∧
    ∀ a : Action, generate_reason s1 a = generate_reason s2 a := by
  constructor
  · unfold determine_action
    rw [ht]
    simp only [hs]
  · intro a
    unfold generate_reason
    rw [ht]
    simp only [hs]

/-- Witness for C9 at two concrete dictionaries that differ in
`sentiment` and `confidence` but agree on `toxicity` and `spam`. -/
theorem C9_noninterference_witness :
    (([(("toxicity" : String), (0 : ℚ)), ("spam", 0), ("sentiment", 1)].lookup "toxicity" =
       [(("toxicity" : String), (0 : ℚ)), ("spam", 0), ("sentiment", -1),
        ("confidence", 1 / 2)].lookup "toxicity") ∧
     ([(("toxicity" : String), (0 : ℚ)), ("spam", 0), ("sentiment", 1)].lookup "spam" =
       [(("toxicity" : String), (0 : ℚ)), ("spam", 0), ("sentiment", -1),
        ("confidence", 1 / 2)].lookup "spam")) ∧
    (determine_action [(("toxicity" : String), (0 : ℚ)), ("spam", 0), ("sentiment", 1)] =
      determine_action [(("toxicity" : String), (0 : ℚ)), ("spam", 0), ("sentiment", -1),
        ("confidence", 1 / 2)] ∧
     ∀ a : Action,
       generate_reason [(("toxicity" : String), (0 : ℚ)), ("spam", 0), ("sentiment", 1)] a =
         generate_reason [(("toxicity" : String), (0 : ℚ)), ("spam", 0), ("sentiment", -1),
           ("confidence", 1 / 2)] a) :=
  ⟨⟨rfl, rfl⟩, C9_noninterference _ _ rfl rfl⟩

/-! ## Claim C10 -/

/-- C10: when neither `toxicity > 0.4` nor `spam > 0.5` holds (so no
threshold-derived reason text is produced), the decided action of the text
path is `warn` or `approved`; an approved text result has reason exactly
`Content approved`, and the fallback reason
`Automatic moderation applied` is not produced. -/
theorem C10_fallback_unreachable (text : Text)
    (h1 : ¬ calculate_toxicity_score text > 4 / 10)
    (h2 : ¬ calculate_spam_score text > 5 / 10) :
    ((analyze_text text).action = Action.warn ∨
      (analyze_text text).action = Action.approved) ∧
    ((analyze_text text).action = Action.approved →
      (analyze_text text).reason = "Content approved") ∧
    (analyze_text text).reason ≠ "Automatic moderation applied" := by
  rw [analyze_text_action, analyze_text_reason]
  set t := calculate_toxicity_score text with hts
  set s := calculate_spam_score text with hss
  have ht7 : ¬ t > 7 / 10 := by
    push_neg at h1 ⊢
    linarith
  have hs8 : ¬ s > 8 / 10 := by
    push_neg at h2 ⊢
    linarith
  have hb1 : ¬ (t > 7 / 10 ∨ s > 8 / 10) := by tauto
  have hb2 : ¬ (t > 4 / 10 ∨ s > 5 / 10) := by tauto
  unfold determineActionTS generateReasonTS
  rw [if_neg hb1, if_neg hb2, if_neg ht7, if_neg h1, if_neg hs8, if_neg h2]
  simp only [List.append_nil, List.isEmpty_nil, if_true]
  by_cases hb3 : t > 2 / 10 ∨ s > 3 / 10
  · rw [if_pos hb3]
    refine ⟨Or.inl rfl, ?_, ?_⟩
    · intro hcontra
      exact absurd hcontra (by simp)
    · decide
  · rw [if_neg hb3]
    exact ⟨Or.inr rfl, fun _ => rfl, by decide⟩

/-- Witness for C10 at the empty string. -/
theorem C10_fallback_unreachable_witness :
    ((¬ calculate_toxicity_score [] > 4 / 10) ∧
     (¬ calculate_spam_score [] > 5 / 10)) ∧
    (((analyze_text []).action = Action.warn ∨
       (analyze_text []).action = Action.approved) ∧
     ((analyze_text []).action = Action.approved →
       (analyze_text []).reason = "Content approved") ∧
     (analyze_text []).reason ≠ "Automatic moderation applied") :=
  ⟨⟨by rw [toxicity_empty]; norm_num, by rw [spam_empty]; norm_num⟩,
   C10_fallback_unreachable []
     (by rw [toxicity_empty]; norm_num) (by rw [spam_empty]; norm_num)⟩

/-! ## Claim C3 -/

/-- The demo's "Toxic content" test input (expected `block` by the demo's
own test table, line 213). -/
def toxicDemoText : Text :=
  "You are all idiots and I hate this toxic community! Everyone here is stupid!".data

theorem toxicity_demo : calculate_toxicity_score toxicDemoText = 3 / 5 := by
  have h1 : toxicPatternCount toxicDemoText = 2 := by decide
  have h2 : profanityCount toxicDemoText = 0 := by decide
  have h3 : capsRatio toxicDemoText = 3 / 76 := by
    unfold capsRatio
    rw [show capsCount toxicDemoText = 3 from by decide,
        show toxicDemoText.length = 76 from by decide]
    norm_num
  simp only [calculate_toxicity_score, h1, h2, h3]
  norm_num [min_def]

theorem spam_demo : calculate_spam_score toxicDemoText = 0 := by
  have h1 : spamPatternCount toxicDemoText = 0 := by decide
  have h2 : countUrls toxicDemoText = 0 := by decide
  have h3 : (pySplit toxicDemoText).length = 14 := by decide
  have h4 : countDistinct (pySplit toxicDemoText) = 14 := by decide
  simp only [calculate_spam_score, h1, h2, h3, h4]
  norm_num [min_def]

/-- C3: on the demo's toxic input, only two toxicity patterns match (the
tokens `idiots` and `stupid!` fail the exact-token profanity check), so
the toxicity score is 0.6, not above 0.7; the action is `flag`, not
`block`, and the reason is `Potentially inappropriate language`, which
does not contain `High toxicity detected` — contradicting both the spec's
Scenario 2 and the demo's own expected outcome. -/
theorem C3_scenario2_fails :
    calculate_toxicity_score toxicDemoText = 3 / 5 ∧
    ¬ (calculate_toxicity_score toxicDemoText > 7 / 10) ∧
    (analyze_text toxicDemoText).action = Action.flag ∧
    (analyze_text toxicDemoText).action ≠ Action.block ∧
    (analyze_text toxicDemoText).reason = "Potentially inappropriate language" ∧
    containsSub "High toxicity detected".data
      (analyze_text toxicDemoText).reason.data = false := by
  have ha : (analyze_text toxicDemoText).action = Action.flag := by
    rw [analyze_text_action, toxicity_demo, spam_demo]
    unfold determineActionTS
    norm_num
  have hr : (analyze_text toxicDemoText).reason = "Potentially inappropriate language" := by
    rw [analyze_text_reason, toxicity_demo, spam_demo]
    unfold generateReasonTS determineActionTS
    norm_num
    decide
  refine ⟨toxicity_demo, by rw [toxicity_demo]; norm_num, ha, ?_, hr, ?_⟩
  · rw [ha]
    decide
  · rw [hr]
    decide

end Moderation
